import Mathlib

/-
Verification of the UBI + Tax Policy Sandbox engine (app.py).

The source is a straight-line script over a fixed four-bracket toy economy.
Each derived quantity of the script (a dataframe column or a scalar) is
embedded below as a definition over exact rationals.  The embedding in ℚ is
faithful to the script's floating-point arithmetic for the fixed reference
data: the four products 100000 * share round to the exact integers
30000, 40000, 20000, 10000 in IEEE double, and every cumulative-share
comparison against the 0.50 / 0.20 thresholds is decided identically over
ℚ and over doubles (the shares 0.3, 0.7, 0.9, 1.0 are far from both
thresholds).
-/

namespace UbiSandbox

/-- One entry of INCOME_GROUPS: name, population share, average annual
income, marginal propensity to consume. -/
structure Group where
  name : String
  pop_share : ℚ
  avg_income : ℚ
  mpc : ℚ
deriving DecidableEq

/-- The fixed reference data `INCOME_GROUPS` of app.py. -/
def INCOME_GROUPS : List Group :=
  [ ⟨"Low", 30/100, 20000, 95/100⟩,
    ⟨"Lower-Middle", 40/100, 40000, 85/100⟩,
    ⟨"Upper-Middle", 20/100, 80000, 75/100⟩,
    ⟨"High", 10/100, 200000, 60/100⟩ ]

/-- `TOTAL_POP = 100000` adults. -/
def TOTAL_POP : ℕ := 100000

/-- Python `int()` applied to a rational: truncation toward zero. -/
def pyInt (q : ℚ) : ℤ := if 0 ≤ q then ⌊q⌋ else ⌈q⌉

/-- The per-bracket consumption split of app.py (the if/elif chain on the
group name): basic share and luxury share. -/
def consumptionShares (name : String) : ℚ × ℚ :=
  if name = "Low" then (98/100, 2/100)
  else if name = "Lower-Middle" then (95/100, 5/100)
  else if name = "Upper-Middle" then (90/100, 10/100)
  else (80/100, 20/100)

/-- One row of the population table built in step 3 of app.py. -/
structure Row where
  group : String
  group_pop : ℤ
  avg_income : ℚ
  mpc : ℚ
  basic_cons : ℚ
  luxury_cons : ℚ
deriving DecidableEq

/-- The row the loop body of step 3 appends for a group `g`:
`group_pop = int(TOTAL_POP * pop_share)`, `consumption = avg_income * mpc`,
split into basic and luxury by the bracket's fixed shares. -/
def mkRow (g : Group) : Row :=
  let group_pop := pyInt ((TOTAL_POP : ℚ) * g.pop_share)
  let consumption := g.avg_income * g.mpc
  let shares := consumptionShares g.name
  { group := g.name
    group_pop := group_pop
    avg_income := g.avg_income
    mpc := g.mpc
    basic_cons := consumption * shares.1
    luxury_cons := consumption * shares.2 }

/-- The dataframe `df` right after step 3 (one row per income group, in
the original order of INCOME_GROUPS). -/
def baseRows : List Row := INCOME_GROUPS.map mkRow

/-- Column `vat_tax_per_person = vat_rate * (basic_cons + luxury_cons)`. -/
def vat_tax_per_person (vat_rate : ℚ) (r : Row) : ℚ :=
  vat_rate * (r.basic_cons + r.luxury_cons)

/-- Column `lux_tax_per_person = luxury_tax_rate * luxury_cons`. -/
def lux_tax_per_person (luxury_tax_rate : ℚ) (r : Row) : ℚ :=
  luxury_tax_rate * r.luxury_cons

/-- Column `income_tax_per_person = income_tax_rate * avg_income`. -/
def income_tax_per_person (income_tax_rate : ℚ) (r : Row) : ℚ :=
  income_tax_rate * r.avg_income

/-- Column `total_tax_per_person`: sum of the three taxes. -/
def total_tax_per_person (vat_rate luxury_tax_rate income_tax_rate : ℚ)
    (r : Row) : ℚ :=
  vat_tax_per_person vat_rate r + lux_tax_per_person luxury_tax_rate r +
    income_tax_per_person income_tax_rate r

/-- Column `total_tax_group = total_tax_per_person * group_pop`. -/
def total_tax_group (vat_rate luxury_tax_rate income_tax_rate : ℚ)
    (r : Row) : ℚ :=
  total_tax_per_person vat_rate luxury_tax_rate income_tax_rate r *
    (r.group_pop : ℚ)

/-- Scalar `total_tax_revenue = df["total_tax_group"].sum()` (computed in
app.py before the sort, over the rows of step 3). -/
def total_tax_revenue (vat_rate luxury_tax_rate income_tax_rate : ℚ) : ℚ :=
  (baseRows.map (total_tax_group vat_rate luxury_tax_rate income_tax_rate)).sum

/-- Stable insertion of a row into a list already sorted ascending by
`avg_income`: the inserted row goes after every earlier row with a smaller
or equal income. -/
def insertByIncome (r : Row) : List Row → List Row
  | [] => [r]
  | x :: xs =>
      if x.avg_income < r.avg_income then x :: insertByIncome r xs
      else r :: x :: xs

/-- Stable ascending sort by `avg_income`, embedding
`df.sort_values("avg_income")`.  Any stable ascending sort produces the
same list, so insertion sort is a faithful model of the pandas sort. -/
def sortByIncome : List Row → List Row
  | [] => []
  | x :: xs => insertByIncome x (sortByIncome xs)

/-- A row of `df` after step 5 added the cumulative columns: the base row
plus `cum_pop` and `cum_pop_share`. -/
structure CumRow extends Row where
  cum_pop : ℤ
  cum_pop_share : ℚ
deriving DecidableEq

/-- Attach `cum_pop = group_pop.cumsum()` and
`cum_pop_share = cum_pop / TOTAL_POP` to a list of rows, carrying the
running population count. -/
def attachCum (cum : ℤ) : List Row → List CumRow
  | [] => []
  | r :: rs =>
      let cum' := cum + r.group_pop
      { toRow := r, cum_pop := cum',
        cum_pop_share := (cum' : ℚ) / (TOTAL_POP : ℚ) } :: attachCum cum' rs

/-- The dataframe after `df.sort_values("avg_income")`, `cum_pop` and
`cum_pop_share` (lines 108-110 of app.py). -/
def cumRows : List CumRow := attachCum 0 (sortByIncome baseRows)

/-- The three recognised values of the `ubi_target` selectbox. -/
inductive Target where
  | everyone
  | bottom50
  | bottom20
deriving DecidableEq

/-- Column `ubi_eligible` (lines 112-117): everyone, or cumulative
population share at most 0.50, or at most 0.20. -/
def ubi_eligible (t : Target) (c : CumRow) : Bool :=
  match t with
  | .everyone => true
  | .bottom50 => decide (c.cum_pop_share ≤ 50/100)
  | .bottom20 => decide (c.cum_pop_share ≤ 20/100)

/-- Scalar `ubi_recipients`: sum of `group_pop` over the eligible rows. -/
def ubi_recipients (t : Target) : ℤ :=
  ((cumRows.filter (ubi_eligible t)).map (fun c => c.group_pop)).sum

/-- Scalar `ubi_annual_per_person = ubi_monthly * 12`. -/
def ubi_annual_per_person (ubi_monthly : ℚ) : ℚ := ubi_monthly * 12

/-- Scalar `total_ubi_cost = ubi_recipients * ubi_annual_per_person`. -/
def total_ubi_cost (ubi_monthly : ℚ) (t : Target) : ℚ :=
  (ubi_recipients t : ℚ) * ubi_annual_per_person ubi_monthly

/-- Scalar `budget_surplus = total_tax_revenue - total_ubi_cost`. -/
def budget_surplus (vat_rate luxury_tax_rate income_tax_rate ubi_monthly : ℚ)
    (t : Target) : ℚ :=
  total_tax_revenue vat_rate luxury_tax_rate income_tax_rate -
    total_ubi_cost ubi_monthly t

/-- Column `ubi_per_person = np.where(ubi_eligible, ubi_annual_per_person, 0)`. -/
def ubi_per_person (ubi_monthly : ℚ) (t : Target) (c : CumRow) : ℚ :=
  if ubi_eligible t c then ubi_annual_per_person ubi_monthly else 0

/-- Column `disposable_income_per_person = avg_income - income_tax -
vat_tax - lux_tax + ubi_per_person` (lines 131-137). -/
def disposable_income_per_person
    (vat_rate luxury_tax_rate income_tax_rate ubi_monthly : ℚ) (t : Target)
    (c : CumRow) : ℚ :=
  c.avg_income - income_tax_per_person income_tax_rate c.toRow -
    vat_tax_per_person vat_rate c.toRow -
    lux_tax_per_person luxury_tax_rate c.toRow +
    ubi_per_person ubi_monthly t c

/-- Scalar `low_disp = df.iloc[0]["disposable_income_per_person"]`: the
first (lowest-income) row of the sorted dataframe. -/
def low_disp (vat_rate luxury_tax_rate income_tax_rate ubi_monthly : ℚ)
    (t : Target) : ℚ :=
  ((cumRows.map (disposable_income_per_person vat_rate luxury_tax_rate
      income_tax_rate ubi_monthly t)).headD 0)

/-- Scalar `high_disp = df.iloc[-1]["disposable_income_per_person"]`: the
last (highest-income) row of the sorted dataframe. -/
def high_disp (vat_rate luxury_tax_rate income_tax_rate ubi_monthly : ℚ)
    (t : Target) : ℚ :=
  ((cumRows.map (disposable_income_per_person vat_rate luxury_tax_rate
      income_tax_rate ubi_monthly t)).getLastD 0)

/-- Scalar `inequality_ratio = high_disp / low_disp if low_disp > 0 else
np.nan` (line 142): `none` embeds the explicit not-a-number result. -/
def inequality (vat_rate luxury_tax_rate income_tax_rate ubi_monthly : ℚ)
    (t : Target) : Option ℚ :=
  if 0 < low_disp vat_rate luxury_tax_rate income_tax_rate ubi_monthly t then
    some (high_disp vat_rate luxury_tax_rate income_tax_rate ubi_monthly t /
      low_disp vat_rate luxury_tax_rate income_tax_rate ubi_monthly t)
  else none

/-- The raw caller-supplied inputs, before the `ubi_target` string is
matched by the if/elif chain of lines 112-117. -/
structure RawInput where
  vat_rate : ℚ
  luxury_tax_rate : ℚ
  income_tax_rate : ℚ
  ubi_monthly : ℚ
  ubi_target : String
deriving DecidableEq

/-- The if/elif chain of lines 112-117 on the `ubi_target` string.  It has
no else branch: an unrecognised string leaves the `ubi_eligible` column
unassigned and the script fails at line 119 with a KeyError, embedded as
`none`. -/
def parseTarget (s : String) : Option Target :=
  if s = "Everyone" then some .everyone
  else if s = "Bottom 50% income" then some .bottom50
  else if s = "Bottom 20% income" then some .bottom20
  else none

/-- Everything the script publishes to the presentation layer, as one
record: the scalar metrics and the per-row outputs. -/
structure EngineResult where
  revenue : ℚ
  recipients : ℤ
  ubi_cost : ℚ
  surplus : ℚ
  ineq : Option ℚ
  eligible_col : List Bool
  disposable_col : List ℚ
deriving DecidableEq

/-- The whole engine run on raw inputs: `none` exactly when the script
crashes (unrecognised `ubi_target`); no other input is rejected, because
app.py contains no validation of the numeric inputs. -/
def runEngine (i : RawInput) : Option EngineResult :=
  (parseTarget i.ubi_target).map fun t =>
    { revenue := total_tax_revenue i.vat_rate i.luxury_tax_rate i.income_tax_rate
      recipients := ubi_recipients t
      ubi_cost := total_ubi_cost i.ubi_monthly t
      surplus := budget_surplus i.vat_rate i.luxury_tax_rate i.income_tax_rate
          i.ubi_monthly t
      ineq := inequality i.vat_rate i.luxury_tax_rate i.income_tax_rate
          i.ubi_monthly t
      eligible_col := cumRows.map (ubi_eligible t)
      disposable_col := cumRows.map (disposable_income_per_person i.vat_rate
          i.luxury_tax_rate i.income_tax_rate i.ubi_monthly t) }

/-- Placeholder row used as the default of list lookups. -/
def defaultCumRow : CumRow :=
  { group := "", group_pop := 0, avg_income := 0, mpc := 0, basic_cons := 0,
    luxury_cons := 0, cum_pop := 0, cum_pop_share := 0 }


/-- The concrete value of the population table of step 3. -/
theorem baseRows_eq :
    baseRows =
      [ { group := "Low", group_pop := 30000, avg_income := 20000,
          mpc := 95/100, basic_cons := 18620, luxury_cons := 380 },
        { group := "Lower-Middle", group_pop := 40000, avg_income := 40000,
          mpc := 85/100, basic_cons := 32300, luxury_cons := 1700 },
        { group := "Upper-Middle", group_pop := 20000, avg_income := 80000,
          mpc := 75/100, basic_cons := 54000, luxury_cons := 6000 },
        { group := "High", group_pop := 10000, avg_income := 200000,
          mpc := 60/100, basic_cons := 96000, luxury_cons := 24000 } ] := by
  simp only [baseRows, INCOME_GROUPS, mkRow, consumptionShares, List.map]
  simp only [String.reduceEq, reduceIte]
  norm_num [pyInt, TOTAL_POP]

/-- The sort of line 108 leaves the reference rows in their original
order: they are already ascending by average income. -/
theorem sortedRows_eq : sortByIncome baseRows = baseRows := by
  rw [baseRows_eq]
  norm_num [sortByIncome, insertByIncome]

/-- The concrete value of the sorted, cumulated dataframe of lines
108-110. -/
theorem cumRows_eq :
    cumRows =
      [ { group := "Low", group_pop := 30000, avg_income := 20000,
          mpc := 95/100, basic_cons := 18620, luxury_cons := 380,
          cum_pop := 30000, cum_pop_share := 3/10 },
        { group := "Lower-Middle", group_pop := 40000, avg_income := 40000,
          mpc := 85/100, basic_cons := 32300, luxury_cons := 1700,
          cum_pop := 70000, cum_pop_share := 7/10 },
        { group := "Upper-Middle", group_pop := 20000, avg_income := 80000,
          mpc := 75/100, basic_cons := 54000, luxury_cons := 6000,
          cum_pop := 90000, cum_pop_share := 9/10 },
        { group := "High", group_pop := 10000, avg_income := 200000,
          mpc := 60/100, basic_cons := 96000, luxury_cons := 24000,
          cum_pop := 100000, cum_pop_share := 1 } ] := by
  rw [cumRows, sortedRows_eq, baseRows_eq]
  norm_num [attachCum, TOTAL_POP]

/-- Total tax revenue is linear in the three rates, with the concrete
nonnegative coefficients of the reference economy. -/
theorem total_tax_revenue_eq (vat_rate luxury_tax_rate income_tax_rate : ℚ) :
    total_tax_revenue vat_rate luxury_tax_rate income_tax_rate =
      4330000000 * vat_rate + 439400000 * luxury_tax_rate +
        5800000000 * income_tax_rate := by
  rw [total_tax_revenue, baseRows_eq]
  simp only [List.map, List.sum_cons, List.sum_nil, total_tax_group,
    total_tax_per_person, vat_tax_per_person, lux_tax_per_person,
    income_tax_per_person]
  ring

/-- The recipient counts of the three targets. -/
theorem ubi_recipients_eq :
    ubi_recipients Target.everyone = 100000 ∧
    ubi_recipients Target.bottom50 = 30000 ∧
    ubi_recipients Target.bottom20 = 0 := by
  refine ⟨?_, ?_, ?_⟩ <;>
    · rw [ubi_recipients, cumRows_eq]
      norm_num [ubi_eligible, List.filter_cons, decide_eq_true_eq]

/-- C8: with target Everyone and the fixed reference population of 4
brackets with TOTAL_POP = 100000, `ubi_recipients` equals the full
reference population, 100000. -/
theorem C8_everyone_recipients :
    ubi_recipients Target.everyone = 100000 ∧ TOTAL_POP = 100000 ∧
    cumRows.length = 4 :=
  ⟨ubi_recipients_eq.1, rfl, by rw [cumRows_eq]; rfl⟩

/-- C10: each of the four population counts equals the floor of
TOTAL_POP * pop_share (Python int() truncation coincides with floor on
these nonnegative products), the counts are 30000, 40000, 20000, 10000,
and their sum is at most TOTAL_POP. -/
theorem C10_population_floor :
    (baseRows.map fun r => r.group_pop) = [30000, 40000, 20000, 10000] ∧
    (INCOME_GROUPS.map fun g => pyInt ((TOTAL_POP : ℚ) * g.pop_share)) =
      (INCOME_GROUPS.map fun g => ⌊(TOTAL_POP : ℚ) * g.pop_share⌋) ∧
    (baseRows.map fun r => r.group_pop).sum ≤ (TOTAL_POP : ℤ) := by
  refine ⟨?_, ?_, ?_⟩
  · rw [baseRows_eq]; rfl
  · norm_num [INCOME_GROUPS, pyInt, TOTAL_POP]
  · rw [baseRows_eq]; norm_num [TOTAL_POP]

/-- C5: under target Bottom 20% no bracket of the reference population is
eligible — the lowest bracket's cumulative share is already 3/10, which
exceeds 20/100 — so for every ubi_monthly the recipient count and the
total UBI cost are zero. -/
theorem C5_bottom20_empty (ubi_monthly : ℚ) :
    (cumRows.map (ubi_eligible Target.bottom20)) =
      [false, false, false, false] ∧
    (cumRows.getD 0 defaultCumRow).cum_pop_share = 3/10 ∧
    ¬ ((cumRows.getD 0 defaultCumRow).cum_pop_share ≤ 20/100) ∧
    ubi_recipients Target.bottom20 = 0 ∧
    total_ubi_cost ubi_monthly Target.bottom20 = 0 := by
  refine ⟨?_, ?_, ?_, ubi_recipients_eq.2.2, ?_⟩
  · rw [cumRows_eq]
    norm_num [ubi_eligible, decide_eq_false_iff_not]
  · rw [cumRows_eq]; rfl
  · rw [cumRows_eq]; norm_num
  · rw [total_ubi_cost, ubi_recipients_eq.2.2]
    norm_num

/-- C9: with all three tax rates zero and ubi_monthly zero, total tax
revenue is zero, total UBI cost is zero, and every bracket's disposable
income equals its average income, for every target. -/
theorem C9_zero_rates (t : Target) :
    total_tax_revenue 0 0 0 = 0 ∧
    total_ubi_cost 0 t = 0 ∧
    cumRows.map (disposable_income_per_person 0 0 0 0 t) =
      cumRows.map fun c => c.avg_income := by
  refine ⟨by rw [total_tax_revenue_eq]; norm_num, ?_, ?_⟩
  · rw [total_ubi_cost, ubi_annual_per_person]
    norm_num
  · rw [cumRows_eq]
    norm_num [disposable_income_per_person, income_tax_per_person,
      vat_tax_per_person, lux_tax_per_person, ubi_per_person,
      ubi_annual_per_person, ite_self]

/-- C4: for every input, budget_surplus equals total_tax_revenue minus
total_ubi_cost exactly, where total_ubi_cost is the recipient count times
12 times ubi_monthly and total_tax_revenue is the sum over the brackets of
total_tax_per_person times population count. -/
theorem C4_budget_identity
    (vat_rate luxury_tax_rate income_tax_rate ubi_monthly : ℚ) (t : Target) :
    budget_surplus vat_rate luxury_tax_rate income_tax_rate ubi_monthly t =
      total_tax_revenue vat_rate luxury_tax_rate income_tax_rate -
        total_ubi_cost ubi_monthly t ∧
    total_ubi_cost ubi_monthly t =
      (ubi_recipients t : ℚ) * (12 * ubi_monthly) ∧
    total_tax_revenue vat_rate luxury_tax_rate income_tax_rate =
      (cumRows.map fun c =>
        total_tax_per_person vat_rate luxury_tax_rate income_tax_rate
            c.toRow *
          (c.group_pop : ℚ)).sum := by
  refine ⟨rfl, by rw [total_ubi_cost, ubi_annual_per_person]; ring, ?_⟩
  rw [total_tax_revenue_eq, cumRows_eq]
  simp [total_tax_per_person, vat_tax_per_person, lux_tax_per_person,
    income_tax_per_person]
  ring


/-- C6: increasing any single one of the three tax rates while holding
the other inputs fixed never decreases total_tax_revenue. -/
theorem C6_revenue_monotone
    (vat_rate vat_rate' luxury_tax_rate luxury_tax_rate'
      income_tax_rate income_tax_rate' : ℚ)
    (hv : vat_rate ≤ vat_rate') (hl : luxury_tax_rate ≤ luxury_tax_rate')
    (hi : income_tax_rate ≤ income_tax_rate') :
    total_tax_revenue vat_rate luxury_tax_rate income_tax_rate ≤
        total_tax_revenue vat_rate' luxury_tax_rate income_tax_rate ∧
    total_tax_revenue vat_rate luxury_tax_rate income_tax_rate ≤
        total_tax_revenue vat_rate luxury_tax_rate' income_tax_rate ∧
    total_tax_revenue vat_rate luxury_tax_rate income_tax_rate ≤
        total_tax_revenue vat_rate luxury_tax_rate income_tax_rate' := by
  simp only [total_tax_revenue_eq]
  exact ⟨by linarith, by linarith, by linarith⟩

/-- Witness for C6 at the concrete rate increase 0 to 1/10 in each
position. -/
theorem C6_witness :
    total_tax_revenue 0 0 0 ≤ total_tax_revenue (1/10) 0 0 ∧
    total_tax_revenue 0 0 0 ≤ total_tax_revenue 0 (1/10) 0 ∧
    total_tax_revenue 0 0 0 ≤ total_tax_revenue 0 0 (1/10) :=
  C6_revenue_monotone 0 (1/10) 0 (1/10) 0 (1/10) (by norm_num) (by norm_num)
    (by norm_num)

/-- C7: increasing ubi_monthly never decreases total_ubi_cost, and
widening the target from Bottom 20% to Bottom 50% to Everyone never
decreases ubi_recipients; the per-bracket eligible sets are nested under
this ordering. -/
theorem C7_ubi_cost_monotone (ubi_monthly ubi_monthly' : ℚ)
    (hm : ubi_monthly ≤ ubi_monthly') (t : Target) :
    total_ubi_cost ubi_monthly t ≤ total_ubi_cost ubi_monthly' t ∧
    ubi_recipients Target.bottom20 ≤ ubi_recipients Target.bottom50 ∧
    ubi_recipients Target.bottom50 ≤ ubi_recipients Target.everyone ∧
    ∀ c ∈ cumRows,
      (ubi_eligible Target.bottom20 c = true →
        ubi_eligible Target.bottom50 c = true) ∧
      (ubi_eligible Target.bottom50 c = true →
        ubi_eligible Target.everyone c = true) := by
  refine ⟨?_, ?_, ?_, ?_⟩
  · have h0 : (0:ℤ) ≤ ubi_recipients t := by
      rcases t with _ | _ | _
      · rw [ubi_recipients_eq.1]; norm_num
      · rw [ubi_recipients_eq.2.1]; norm_num
      · rw [ubi_recipients_eq.2.2]
    have h0q : (0:ℚ) ≤ (ubi_recipients t : ℚ) := by exact_mod_cast h0
    rw [total_ubi_cost, total_ubi_cost, ubi_annual_per_person,
      ubi_annual_per_person]
    exact mul_le_mul_of_nonneg_left (by linarith) h0q
  · rw [ubi_recipients_eq.2.2, ubi_recipients_eq.2.1]; norm_num
  · rw [ubi_recipients_eq.2.1, ubi_recipients_eq.1]; norm_num
  · intro c hc
    rw [cumRows_eq] at hc
    fin_cases hc <;>
      norm_num [ubi_eligible, decide_eq_true_eq]

/-- Witness for C7 at the concrete increase from 0 to 100 per month with
target Everyone. -/
theorem C7_witness :
    total_ubi_cost 0 Target.everyone ≤ total_ubi_cost 100 Target.everyone :=
  (C7_ubi_cost_monotone 0 100 (by norm_num) Target.everyone).1

/-- C3: if the lowest-income bracket's disposable income is strictly
positive, inequality equals the highest-income bracket's disposable
income divided by the lowest-income bracket's (rows ascending by average
income); otherwise it is the explicit absent value none.  No error in
either case: inequality is a total function. -/
theorem C3_inequality_cases
    (vat_rate luxury_tax_rate income_tax_rate ubi_monthly : ℚ) (t : Target) :
    (0 < low_disp vat_rate luxury_tax_rate income_tax_rate ubi_monthly t →
      inequality vat_rate luxury_tax_rate income_tax_rate ubi_monthly t =
        some (high_disp vat_rate luxury_tax_rate income_tax_rate ubi_monthly
            t /
          low_disp vat_rate luxury_tax_rate income_tax_rate ubi_monthly t)) ∧
    (low_disp vat_rate luxury_tax_rate income_tax_rate ubi_monthly t ≤ 0 →
      inequality vat_rate luxury_tax_rate income_tax_rate ubi_monthly t =
        none) ∧
    (cumRows.map fun c => c.avg_income) = [20000, 40000, 80000, 200000] := by
  refine ⟨fun h => ?_, fun h => ?_, ?_⟩
  · rw [inequality, if_pos h]
  · rw [inequality, if_neg (not_lt.mpr h)]
  · rw [cumRows_eq]; rfl

/-- Witness for C3: with all levers at zero the ratio is defined and
equals 10. -/
theorem C3_witness :
    inequality 0 0 0 0 Target.everyone = some 10 := by
  have hlow : low_disp 0 0 0 0 Target.everyone = 20000 := by
    rw [low_disp, cumRows_eq]
    norm_num [disposable_income_per_person, income_tax_per_person,
      vat_tax_per_person, lux_tax_per_person, ubi_per_person,
      ubi_annual_per_person, ite_self]
  have hhigh : high_disp 0 0 0 0 Target.everyone = 200000 := by
    rw [high_disp, cumRows_eq]
    norm_num [disposable_income_per_person, income_tax_per_person,
      vat_tax_per_person, lux_tax_per_person, ubi_per_person,
      ubi_annual_per_person, ite_self]
  have h := (C3_inequality_cases 0 0 0 0 Target.everyone).1
    (by rw [hlow]; norm_num)
  rw [h, hlow, hhigh]
  norm_num


/-- C1: for every policy input and every bracket of the sorted rows, the
cumulative population share is the running sum of population counts
through and including that bracket divided by TOTAL_POP, and eligibility
is decided per whole bracket from that share: with Everyone every bracket
is eligible, with Bottom 50% a bracket is eligible iff its share is at
most 50/100, with Bottom 20% iff at most 20/100.  Eligibility is one
boolean per bracket: wholly included or wholly excluded, never partial. -/
theorem C1_eligibility_by_cumulative_share (t : Target) (i : Fin 4) :
    (cumRows.getD (i : ℕ) defaultCumRow).cum_pop_share =
      (((sortByIncome baseRows).take ((i : ℕ) + 1)).map fun r =>
        (r.group_pop : ℚ)).sum / (TOTAL_POP : ℚ) ∧
    (ubi_eligible t (cumRows.getD (i : ℕ) defaultCumRow) = true ↔
      (match t with
        | Target.everyone => True
        | Target.bottom50 =>
            (cumRows.getD (i : ℕ) defaultCumRow).cum_pop_share ≤ 50/100
        | Target.bottom20 =>
            (cumRows.getD (i : ℕ) defaultCumRow).cum_pop_share ≤ 20/100)) := by
  rcases t with _ | _ | _ <;> fin_cases i <;>
    rw [cumRows_eq, sortedRows_eq, baseRows_eq] <;>
      norm_num [ubi_eligible, decide_eq_true_eq, TOTAL_POP]

/-- C2 fails on the code as stated: a negative income tax rate is not
rejected — the engine runs to completion and returns a full result, with
the negative rate flowing into a negative revenue. -/
theorem C2_counterexample_negative_rate :
    (runEngine ⟨0, 0, -1, 0, "Everyone"⟩).isSome = true ∧
    (runEngine ⟨0, 0, -1, 0, "Everyone"⟩).map
      (fun r => r.revenue) = some (-5800000000) := by
  constructor
  · simp [runEngine, parseTarget]
  · simp [runEngine, parseTarget, total_tax_revenue_eq]

/-- C2 amended: the engine fails exactly when the ubi_target string is
outside the enumerated set (the if/elif chain assigns no eligibility and
the run aborts); every other input — including negative rates and a
negative ubi_monthly — is accepted without validation and produces a
complete result. -/
theorem C2_amended_validation (i : RawInput) :
    (runEngine i).isSome =
      (i.ubi_target == "Everyone" || i.ubi_target == "Bottom 50% income" ||
        i.ubi_target == "Bottom 20% income") := by
  rcases i with ⟨v, l, n, m, s⟩
  by_cases h1 : s = "Everyone"
  · simp [runEngine, parseTarget, h1]
  · by_cases h2 : s = "Bottom 50% income"
    · simp [runEngine, parseTarget, h1, h2]
    · by_cases h3 : s = "Bottom 20% income"
      · simp [runEngine, parseTarget, h1, h2, h3]
      · simp [runEngine, parseTarget, h1, h2, h3]

end UbiSandbox
